import Mathlib

set_option maxRecDepth 4000

/-!
# Verification of the TW2025 multiplayer trade server

A shallow embedding of the core server of the TradeWars-2025 multiplayer
game (packet codec, galaxy model, port pricing, trade engine, stardock
processor, connection lifecycle), together with proofs and refutations of
the specification claims about it.

Conventions of the embedding:

* Python dictionaries with a fixed key set become Lean structures; the
  galaxy's sector dictionary becomes a function `Nat → Option Sector`.
* Python `int` becomes `Int` (or `Nat` where the source value is provably
  non-negative on every construction path).
* Calls to `random.*` become explicit oracle parameters, constrained only
  by what the library call guarantees.
* Python `float` arithmetic (used only in port pricing) is modelled
  exactly: every intermediate result is rounded to the nearest IEEE-754
  binary64 value (ties to even) over `ℚ`.
* The JSON wire layer: `json.dumps`/`json.loads` are standard-library
  collaborators; packets are modelled as structured JSON values, on which
  the stdlib round trip is the identity.
-/

namespace TW

/-! ## JSON values and the packet codec (game/network/packets.py) -/

/-- A JSON value, as handled by the stdlib `json` module (floats are not
used in any packet this program builds). Objects keep insertion order,
as Python dicts do. -/
inductive Json where
  | null : Json
  | bool (b : Bool) : Json
  | num (n : Int) : Json
  | str (s : String) : Json
  | arr (elems : List Json) : Json
  | obj (members : List (String × Json)) : Json

/-- `packets.py` line 46: `encode_packet(packet_type, payload)`. The
`payload`-is-a-dict check is enforced by the argument type here; the
empty-type check is kept. Returns the JSON envelope that `json.dumps`
serialises. -/
def encode_packet (packet_type : String) (payload : List (String × Json)) :
    Except String Json :=
  if packet_type = "" then
    Except.error "packet_type must be a non-empty string"
  else
    Except.ok (Json.obj [("type", Json.str packet_type), ("payload", Json.obj payload)])

/-- `packets.py` line 69: `decode_packet(raw_json)`, applied to the JSON
value the stdlib parser produced. A `null` or absent field is `None` in
Python, so both fall into the error branches, exactly as in the source. -/
def decode_packet (j : Json) : Except String Json :=
  match j with
  | Json.obj members =>
    match members.lookup "type" with
    | some (Json.str _) =>
      match members.lookup "payload" with
      | some (Json.obj _) => Except.ok j
      | _ => Except.error "Packet missing valid payload field"
    | _ => Except.error "Packet missing valid type field"
  | _ => Except.error "Packet must be a JSON object"

/-- `packets.py` line 119: the fixed packet-type catalog `VALID_PACKET_TYPES`. -/
def VALID_PACKET_TYPES : List String :=
  ["PLAYER_CONNECT", "PLAYER_DISCONNECT", "PLAYER_MOVE", "MOVE_REJECT",
   "SECTOR_UPDATE", "CHAT_MESSAGE", "HEARTBEAT_PING", "HEARTBEAT_PONG",
   "PORT_TRADE", "TRADE_RESULT", "SCAN_REQUEST", "SCAN_RESULT",
   "DOCK_REQUEST", "DOCK_RESULT", "DOCK_ACTION"]

/-- The envelope `{"type": t, "payload": p}` built by `encode_packet`. -/
def packetObj (t : String) (p : List (String × Json)) : Json :=
  Json.obj [("type", Json.str t), ("payload", Json.obj p)]

/-- The shape `decode_packet` accepts: a JSON object whose `type` member is
a string and whose `payload` member is an object. Stated from the raise
conditions of the spec for comparison with the code. -/
def decodable_shape (j : Json) : Bool :=
  match j with
  | Json.obj members =>
    (match members.lookup "type" with
     | some (Json.str _) => true
     | _ => false)
    &&
    (match members.lookup "payload" with
     | some (Json.obj _) => true
     | _ => false)
  | _ => false

/-! ## Commodities, port types and pricing (game/world/port.py) -/

/-- The fixed closed commodity set, `port.py` line 20. -/
inductive Commodity where
  | fuel : Commodity
  | ore : Commodity
  | equipment : Commodity
deriving DecidableEq, Repr

/-- `port.py` line 20: `COMMODITIES`. -/
def COMMODITIES : List Commodity := [Commodity.fuel, Commodity.ore, Commodity.equipment]

/-- `port.py` line 22: `BASE_PRICES`. -/
def BASE_PRICES : Commodity → Nat
  | Commodity.fuel => 10
  | Commodity.ore => 25
  | Commodity.equipment => 50

/-- A trade direction: `"buy"` means the port buys from players, `"sell"`
means the port sells to players. -/
inductive Mode where
  | buy : Mode
  | sell : Mode
deriving DecidableEq, Repr

/-- `port.py` line 31: the `PORT_TYPES` direction table, `none` for ids
outside the table. -/
def PORT_TYPES : Nat → Option (Commodity → Mode)
  | 1 => some fun c => match c with
      | Commodity.fuel => Mode.buy
      | Commodity.ore => Mode.sell
      | Commodity.equipment => Mode.sell
  | 2 => some fun c => match c with
      | Commodity.fuel => Mode.sell
      | Commodity.ore => Mode.buy
      | Commodity.equipment => Mode.sell
  | 3 => some fun c => match c with
      | Commodity.fuel => Mode.sell
      | Commodity.ore => Mode.sell
      | Commodity.equipment => Mode.buy
  | _ => none

/-! ### Exact binary64 arithmetic

`Port.update_prices` evaluates its price factors in Python floats, which
are IEEE-754 binary64 values. The model computes the same values exactly
over unnormalised integer fractions (`Rat` normalisation is not
kernel-reducible, so concrete prices could not be settled with `decide`
over `ℚ`). -/

/-- `⌊log2 n⌋` for positive `n`, with structural fuel (zero for `n ≤ 1`). -/
def log2Aux : Nat → Nat → Nat
  | 0, _ => 0
  | fuel + 1, n => if n ≤ 1 then 0 else log2Aux fuel (n / 2) + 1

def log2fuel (n : Nat) : Nat := log2Aux 400 n

/-- An unnormalised fraction `num / den` (`den` is kept positive). -/
structure Q where
  num : Int
  den : Nat
deriving DecidableEq, Repr

def Q.add (a b : Q) : Q := ⟨a.num * b.den + b.num * a.den, a.den * b.den⟩

def Q.mulNat (a : Q) (k : Nat) : Q := ⟨a.num * k, a.den⟩

/-- Floor of a non-negative fraction. Int division truncates toward zero,
which is the floor for non-negative values, and is also what Python
`int()` computes on the non-negative floats appearing here. -/
def Q.floorNonneg (a : Q) : Int := a.num / (a.den : Int)

/-- The rational value of a fraction. -/
def Q.val (a : Q) : ℚ := (a.num : ℚ) / (a.den : ℚ)

/-- Round a non-negative fraction to the nearest IEEE-754 binary64 value,
ties to even. All pricing intermediates are normal, positive doubles in
`(2 ^ (-10), 2 ^ 8)`, so subnormals, overflow and negatives never arise
and a 60-bit scaling suffices to locate the binade. -/
def roundD (x : Q) : Q :=
  if x.num ≤ 0 then ⟨0, 1⟩
  else
    let e : Int := (log2fuel ((x.num.toNat * 2 ^ 60) / x.den) : Int) - 60
    let s : Int := e - 52
    let m : Q := if 0 ≤ s then ⟨x.num, x.den * 2 ^ s.toNat⟩ else ⟨x.num * 2 ^ (-s).toNat, x.den⟩
    let n0 : Int := m.num / (m.den : Int)
    let r : Int := 2 * (m.num - n0 * (m.den : Int))
    let mp : Int :=
      if r < (m.den : Int) then n0
      else if (m.den : Int) < r then n0 + 1
      else if n0 % 2 = 0 then n0 else n0 + 1
    if 0 ≤ s then ⟨mp * 2 ^ s.toNat, 1⟩ else ⟨mp, 2 ^ (-s).toNat⟩

/-- The binary64 value of the Python literal `0.6`. -/
def DOUBLE_0_6 : Q := roundD ⟨3, 5⟩

/-- The price `port.py` lines 127-140 compute for one commodity: the float
expression `max(5, int(base * factor))` evaluated in exact binary64
semantics, one rounding per arithmetic operation. The integer numerators
`100 - level` and the int-to-float conversions are exact. -/
def float_price (m : Mode) (base level : Nat) : Nat :=
  let factor : Q :=
    match m with
    | Mode.sell => roundD (Q.add DOUBLE_0_6 (roundD ⟨(100 : Int) - (level : Int), 150⟩))
    | Mode.buy => roundD (Q.add ⟨1, 1⟩ (roundD ⟨(level : Int), 150⟩))
  max 5 (Q.floorNonneg (roundD (factor.mulNat base))).toNat

/-! ### The Port object -/

/-- `port.py` line 66: the `Port` dataclass. `modes` is derived from
`type_id` (line 101), so it is not a stored field here. -/
structure Port where
  name : String
  type_id : Nat
  commodity_levels : Commodity → Nat
  prices : Commodity → Nat

/-- `port.py` line 101: `self.modes = PORT_TYPES[self.type_id]`. The
fallback branch is unreachable for ports the program constructs, since
`__post_init__` raises on a `type_id` outside the table. -/
def Port.modes (p : Port) (c : Commodity) : Mode :=
  match PORT_TYPES p.type_id with
  | some modes => modes c
  | none => Mode.sell

/-- `port.py` line 119: `update_prices`. -/
def Port.update_prices (p : Port) : Port :=
  { p with prices := fun c => float_price (p.modes c) (BASE_PRICES c) (p.commodity_levels c) }

/-- The image of `Port.to_dict` (`port.py` line 181): all four keys are
always emitted. -/
structure PortData where
  name : String
  type_id : Nat
  commodity_levels : Commodity → Nat
  prices : Commodity → Nat

/-- `port.py` line 181: `to_dict`. -/
def Port.to_dict (p : Port) : PortData :=
  ⟨p.name, p.type_id, p.commodity_levels, p.prices⟩

/-- `port.py` line 196: `from_dict`, restricted to complete records (the
shape `to_dict` writes, which is what the galaxy snapshot holds). An
invalid `type_id` is replaced by a random one, modelled by the oracle
`rand_type`; levels are clamped into `0..100` (the lower clamp is vacuous
on `Nat`); prices are floored at 1. With all keys present the random
fallbacks for missing levels and prices are never drawn. -/
def Port.from_dict (rand_type : Nat) (d : PortData) : Port :=
  let type_id := if (PORT_TYPES d.type_id).isSome then d.type_id else rand_type
  { name := d.name
    type_id := type_id
    commodity_levels := fun c => min 100 (d.commodity_levels c)
    prices := fun c => max 1 (d.prices c) }

/-! ## Sectors and the galaxy (game/world/galaxy.py) -/

/-- `galaxy.py` line 21: the `Sector` class. The `planet` field is a
placeholder carried through save and load untouched; its payload is
modelled as an opaque integer. -/
structure Sector where
  id : Nat
  neighbors : List Nat
  port : Option Port
  planet : Option Int
  is_stardock : Bool

/-- `galaxy.py` line 33: `Sector.__init__`. -/
def Sector.new (sector_id : Nat) : Sector :=
  ⟨sector_id, [], none, none, false⟩

/-- The image of `Sector.to_dict` (`galaxy.py` line 46): all five keys are
always emitted. -/
structure SectorData where
  id : Nat
  neighbors : List Nat
  port : Option PortData
  planet : Option Int
  stardock : Bool

/-- `galaxy.py` line 46: `Sector.to_dict`. -/
def Sector.to_dict (s : Sector) : SectorData :=
  ⟨s.id, s.neighbors, s.port.map Port.to_dict, s.planet, s.is_stardock⟩

/-- `galaxy.py` line 61: `Sector.from_dict`, restricted to records of the
shape `to_dict` writes (all keys present, `neighbors` a list). Note the
port branch, `galaxy.py` line 89: only a truthy saved `port` record
replaces the port of the sector object being populated; a saved
`port: None` leaves whatever port the object already carries. On
complete records `Port.from_dict` cannot raise, so the warning branch
that would reset the port to `None` is not taken. -/
def Sector.from_dict (rand_type : Nat) (sec_data : SectorData) (sector_obj : Sector) : Sector :=
  let s1 := { sector_obj with neighbors := sec_data.neighbors }
  let s2 := { s1 with planet := sec_data.planet }
  let s3 :=
    match sec_data.port with
    | some pd => { s2 with port := some (Port.from_dict rand_type pd) }
    | none => s2
  { s3 with is_stardock := sec_data.stardock }

/-- `galaxy.py` line 106: the `Galaxy` class. The sector dictionary is a
partial map; every constructor populates exactly the keys `1..size`. -/
structure Galaxy where
  size : Nat
  sectors : Nat → Option Sector

/-- The random draws `Galaxy.__init__` makes: the `random.sample` of warp
destinations per sector (line 157), the `random.sample` of sectors that
receive ports (line 176, drawn from sectors other than 2), and the fresh
random `Port()` built for each of them (line 179). -/
structure GalaxyRand where
  warps : Nat → List Nat
  port_sids : List Nat
  mk_port : Nat → Port

/-- `galaxy.py` line 115: `Galaxy.__init__` — create sectors `1..size`,
mark sector 2 as the stardock, generate warps, generate ports (the chosen
sectors exclude 2 by construction of `available_sectors`, but no such
constraint is needed here), then strip any port from sector 2. -/
def Galaxy.init (size : Nat) (r : GalaxyRand) : Galaxy :=
  let base : Nat → Option Sector := fun i =>
    if 1 ≤ i ∧ i ≤ size then some (Sector.new i) else none
  let s1 : Nat → Option Sector := fun i =>
    if i = 2 then (base i).map (fun s => { s with is_stardock := true }) else base i
  let s2 : Nat → Option Sector := fun i =>
    (s1 i).map (fun s => { s with neighbors := r.warps i })
  let s3 : Nat → Option Sector := fun i =>
    if i ∈ r.port_sids then (s2 i).map (fun s => { s with port := some (r.mk_port i) }) else s2 i
  let s4 : Nat → Option Sector := fun i =>
    if i = 2 then (s3 i).map (fun s => { s with port := none }) else s3 i
  ⟨size, s4⟩

/-- The image of `Galaxy.to_dict` (`galaxy.py` line 185). -/
structure GalaxyData where
  size : Nat
  sectors : List (Nat × SectorData)

/-- `galaxy.py` line 185: `Galaxy.to_dict`. The sector dictionary of every
galaxy the program builds has exactly the keys `1..size`, so the emitted
mapping is their enumeration. -/
def Galaxy.to_dict (g : Galaxy) : GalaxyData :=
  ⟨g.size, (List.range' 1 g.size).filterMap fun i => (g.sectors i).map fun s => (i, s.to_dict)⟩

/-- One iteration of the restore loop in `Galaxy.from_dict` (`galaxy.py`
line 228): a saved record for an existing sector id populates that sector
in place; ids outside the fresh galaxy are skipped. -/
def Galaxy.restore_sector (rand_type : Nat) (g : Galaxy) (entry : Nat × SectorData) : Galaxy :=
  match g.sectors entry.1 with
  | some s =>
    { g with sectors := fun i =>
        if i = entry.1 then some (Sector.from_dict rand_type entry.2 s) else g.sectors i }
  | none => g

/-- `galaxy.py` line 197: `Galaxy.from_dict`, restricted to data of the
shape `to_dict` writes (`size` present, each record well-formed, so the
per-sector exception handler is never entered). A fresh random galaxy is
generated first — `r` holds its draws — and the saved records are then
written over it. -/
def Galaxy.from_dict (r : GalaxyRand) (rand_type : Nat) (data : GalaxyData) : Galaxy :=
  let g := Galaxy.init data.size r
  data.sectors.foldl (Galaxy.restore_sector rand_type) g

/-- The port of the sector a given id names, if any. -/
def Galaxy.portAt (g : Galaxy) (sid : Nat) : Option Port :=
  (g.sectors sid).bind Sector.port

/-- Sector 2 exists, is the stardock and has no port — the property claim
C2 asserts. -/
def sector2_ok (g : Galaxy) : Bool :=
  match g.sectors 2 with
  | some s => s.is_stardock && s.port.isNone
  | none => false

/-! ## Player state and the trade engine (game/network/server.py) -/

/-- The player's cargo mapping. The server seeds all three commodity keys
at connect (`server.py` line 348) and `_do_trade` defaults a missing key
to 0 before reading it, so a total mapping with default 0 is
observationally identical to the Python dict. -/
structure Cargo where
  fuel : Int
  ore : Int
  equipment : Int
deriving DecidableEq, Repr

def Cargo.get (c : Cargo) : Commodity → Int
  | Commodity.fuel => c.fuel
  | Commodity.ore => c.ore
  | Commodity.equipment => c.equipment

def Cargo.set (c : Cargo) : Commodity → Int → Cargo
  | Commodity.fuel, v => { c with fuel := v }
  | Commodity.ore, v => { c with ore := v }
  | Commodity.equipment, v => { c with equipment := v }

/-- `sum(cargo.values())`. -/
def Cargo.total (c : Cargo) : Int := c.fuel + c.ore + c.equipment

/-- The per-player state dictionary the server keeps (`server.py`
line 344). -/
structure PlayerState where
  sector : Nat
  credits : Int
  holds : Int
  cargo : Cargo
  hull : Int
  shields : Int
  bank : Int
deriving DecidableEq, Repr

/-- The starting state seeded at connect (`server.py` line 344). -/
def initial_player_state : PlayerState :=
  { sector := 1, credits := 1000, holds := 100, cargo := ⟨0, 0, 0⟩,
    hull := 100, shields := 10, bank := 0 }

/-- The commodity a trade-packet `good` string names; `none` is a string
outside the price table (every port's `prices` dict has exactly the three
commodity keys on every construction path). -/
def commodity_of_string : String → Option Commodity
  | "fuel" => some Commodity.fuel
  | "ore" => some Commodity.ore
  | "equipment" => some Commodity.equipment
  | _ => none

/-- The payload `_do_trade` returns for `TRADE_RESULT`: outcome flag,
reason, the full current player state, and the port snapshot (if any). -/
structure TradeResult where
  success : Bool
  message : String
  player_state : PlayerState
  port : Option Port

/-- `server.py` line 137: `_do_trade`. The mutations Python performs on
the shared state dict become the `player_state` field of the result; the
interpolated quantities in the message strings are elided. A missing
sector and a sector without a port take the same branch. -/
def do_trade (g : Galaxy) (state : PlayerState) (action good : String) (amount : Int) :
    TradeResult :=
  match (g.sectors state.sector).bind Sector.port with
  | none => ⟨false, "No port in this sector.", state, none⟩
  | some port =>
    match commodity_of_string good with
    | none => ⟨false, s!"Port does not trade {good}.", state, some port⟩
    | some c =>
      if amount ≤ 0 then ⟨false, "Amount must be positive.", state, some port⟩
      else
        let price_per : Int := port.prices c
        if action = "INFO" then ⟨true, "Port info.", state, some port⟩
        else if action = "BUY" then
          let total_cost := price_per * amount
          let used_holds := state.cargo.total
          if state.holds < used_holds + amount then
            ⟨false, "Not enough cargo space.", state, some port⟩
          else if state.credits < total_cost then
            ⟨false, "Not enough credits.", state, some port⟩
          else
            ⟨true, s!"Bought {good}.",
             { state with credits := state.credits - total_cost,
                          cargo := state.cargo.set c (state.cargo.get c + amount) },
             some port⟩
        else if action = "SELL" then
          if state.cargo.get c < amount then
            ⟨false, s!"Not enough {good} to sell.", state, some port⟩
          else
            let total_gain := price_per * amount
            ⟨true, s!"Sold {good}.",
             { state with cargo := state.cargo.set c (state.cargo.get c - amount),
                          credits := state.credits + total_gain },
             some port⟩
        else ⟨false, s!"Unknown trade action {action}.", state, some port⟩

/-- One `PORT_TRADE` request. -/
structure TradeOp where
  action : String
  good : String
  amount : Int

/-- Run a sequence of trade requests against a fixed galaxy, threading the
player state the way the server's per-connection loop does. -/
def apply_trades (g : Galaxy) : PlayerState → List TradeOp → PlayerState
  | st, [] => st
  | st, op :: rest =>
    apply_trades g (do_trade g st op.action op.good op.amount).player_state rest

/-- Every BUY and SELL step of the sequence reports success when run from
the given state. -/
def trades_succeed (g : Galaxy) : PlayerState → List TradeOp → Bool
  | _, [] => true
  | st, op :: rest =>
    let r := do_trade g st op.action op.good op.amount
    (!(op.action == "BUY" || op.action == "SELL") || r.success)
      && trades_succeed g r.player_state rest

/-- The invariant of claim C1: cargo within holds and non-negative
credits. -/
def trade_invariant (st : PlayerState) : Prop :=
  st.cargo.total ≤ st.holds ∧ 0 ≤ st.credits

instance (st : PlayerState) : Decidable (trade_invariant st) := by
  unfold trade_invariant; infer_instance

/-! ## The stardock service processor (game/world/stardock.py) -/

/-- The `RUMORS` table (`stardock.py` line 50): fifteen flavor lines. The
claims never inspect the text, so the quotes-and-apostrophes prose is
abbreviated here; only the count and the selection by index matter. -/
def RUMORS : List String :=
  ["rumor line 1", "rumor line 2", "rumor line 3", "rumor line 4", "rumor line 5",
   "rumor line 6", "rumor line 7", "rumor line 8", "rumor line 9", "rumor line 10",
   "rumor line 11", "rumor line 12", "rumor line 13", "rumor line 14", "rumor line 15"]

/-- The `drinks` table inside `RUSTY_DRINKS` (`stardock.py` line 380). -/
def DRINKS : List String :=
  ["Pan-Galactic Gargle Blaster", "Sirius Cybertonic", "Nebula Fizz",
   "Void Whiskey", "Asteroid Ale"]

/-- The catalog lines the unknown-action branch returns (`stardock.py`
line 440), verbatim. -/
def STARDOCK_CATALOG_LINES : List String :=
  ["Available actions:",
   "REPAIR_HULL, UPGRADE_SHIELDS, EXPAND_CARGO",
   "BANK_DEPOSIT, BANK_WITHDRAW, BANK_BALANCE",
   "RUSTY_RUMOR, RUSTY_GAMBLE, RUSTY_DRINKS"]

/-- The action names `stardock_process_action` recognises. -/
def KNOWN_STARDOCK_ACTIONS : List String :=
  ["REPAIR_HULL", "UPGRADE_SHIELDS", "EXPAND_CARGO",
   "BANK_DEPOSIT", "BANK_WITHDRAW", "BANK_BALANCE",
   "RUSTY_RUMOR", "RUSTY_GAMBLE", "RUSTY_DRINKS",
   "MARKET_BROWSE", "TECH_BROWSE"]

/-- The `_result` response shape (`stardock.py` line 20). -/
structure SDResult where
  success : Bool
  message : String
  lines : List String
  player_state : PlayerState
deriving DecidableEq, Repr

/-- `stardock.py` line 92: `stardock_process_action`. `amount` is
`params.get("amount", 0)`; the three `random` draws become the oracle
arguments `roll` (`random.randint(1, 100)` in `RUSTY_GAMBLE`),
`rumor_idx` and `drink_idx` (`random.choice` positions). The galaxy
argument of the source is unused there and omitted. Interpolated
quantities in messages are elided; the unknown-action catalog is kept
verbatim. -/
def stardock_process_action (action : String) (amount : Int)
    (roll rumor_idx drink_idx : Nat) (player : PlayerState) : SDResult :=
  if action = "REPAIR_HULL" then
    let current_hull := player.hull
    if 100 ≤ current_hull then
      ⟨false, "Hull integrity at maximum. No repairs needed.", [], player⟩
    else if player.credits < 150 then
      ⟨false, "Not enough credits. Hull repair costs 150 credits.", [], player⟩
    else
      ⟨true, "Hull repaired.",
       ["Nano-welders seal the breaches with surgical precision.", "Cost: 150 credits."],
       { player with credits := player.credits - 150, hull := min (current_hull + 10) 100 }⟩
  else if action = "UPGRADE_SHIELDS" then
    if player.credits < 500 then
      ⟨false, "Insufficient credits. Shield upgrade costs 500 credits.", [], player⟩
    else
      ⟨true, "Shield capacity increased by 5.",
       ["Capacitors hum as the new shield emitters come online.", "Cost: 500 credits."],
       { player with credits := player.credits - 500, shields := player.shields + 5 }⟩
  else if action = "EXPAND_CARGO" then
    if player.credits < 5000 then
      ⟨false, "Not enough credits. Cargo expansion costs 5000 credits.", [], player⟩
    else
      ⟨true, "Cargo holds expanded by 5.",
       ["Engineering crews install modular storage units.", "Cost: 5000 credits."],
       { player with credits := player.credits - 5000, holds := player.holds + 5 }⟩
  else if action = "BANK_DEPOSIT" then
    if amount ≤ 0 then
      ⟨false, "Invalid deposit amount. Must be greater than 0.", [], player⟩
    else if player.credits < amount then
      ⟨false, "Insufficient credits.", [], player⟩
    else
      ⟨true, "Deposited.",
       ["Funds are protected by military-grade encryption."],
       { player with credits := player.credits - amount, bank := player.bank + amount }⟩
  else if action = "BANK_WITHDRAW" then
    if amount ≤ 0 then
      ⟨false, "Invalid withdrawal amount. Must be greater than 0.", [], player⟩
    else if player.bank < amount then
      ⟨false, "Insufficient bank balance.", [], player⟩
    else
      ⟨true, "Withdrew.",
       ["Credits transferred to the vault of your ship."],
       { player with bank := player.bank - amount, credits := player.credits + amount }⟩
  else if action = "BANK_BALANCE" then
    ⟨true, "Account summary:", ["Bank balance", "Cash on hand", "Total assets"], player⟩
  else if action = "RUSTY_RUMOR" then
    ⟨true, "A hooded figure leans close and whispers...",
     ["", RUMORS.getD rumor_idx "", "", "They disappear back into the smoky crowd."], player⟩
  else if action = "RUSTY_GAMBLE" then
    if amount ≤ 0 then
      ⟨false, "Invalid bet amount. Must be greater than 0.", [], player⟩
    else if player.credits < amount then
      ⟨false, "Not enough credits to gamble.", [], player⟩
    else
      let player2 := { player with credits := player.credits - amount }
      if roll ≤ 50 then
        ⟨true, "YOU WON! The house pays out.",
         ["The dealer nods with grudging respect."],
         { player2 with credits := player2.credits + amount * 2 }⟩
      else
        ⟨false, "You lost. The house takes your credits.",
         ["The dealer smirks and slides your chips away."], player2⟩
  else if action = "RUSTY_DRINKS" then
    if player.credits < 10 then
      ⟨false, "Not enough credits for a drink.", [], player⟩
    else
      let drink := DRINKS.getD drink_idx ""
      ⟨true, s!"You order a {drink}.",
       ["The bartender slides it across the counter.", "Cost: 10 credits"],
       { player with credits := player.credits - 10 }⟩
  else if action = "MARKET_BROWSE" then
    ⟨true, "Market Promenade coming soon!",
     ["Under construction. Check back later."], player⟩
  else if action = "TECH_BROWSE" then
    ⟨true, "Tech Lab experimental mods coming soon!",
     ["Currently in development. Stand by."], player⟩
  else
    ⟨false, s!"Unknown Stardock action: {action}", STARDOCK_CATALOG_LINES, player⟩

/-! ## Connection lifecycle fragments (game/network/server.py) -/

/-- `server.py` line 531: after a `DOCK_ACTION` handled by the stardock
processor, the player-state mapping is persisted if and only if the
result reports success. -/
def dock_action_saves (result : SDResult) : Bool :=
  result.success

/-- `server.py` lines 550-555, the `finally` block of `handle_connection`:
pop the connection from the registry, pop the player state from the
in-memory mapping, then write the (already popped) mapping to disk.
Returns the new registry, the new in-memory mapping, and the mapping the
disconnect-time `save_players` call persists. -/
def handle_disconnect (player_id : String) (connected : String → Bool)
    (players : String → Option PlayerState) :
    (String → Bool) × (String → Option PlayerState) × (String → Option PlayerState) :=
  let connected2 : String → Bool := fun k => if k = player_id then false else connected k
  let players2 : String → Option PlayerState := fun k => if k = player_id then none else players k
  (connected2, players2, players2)

/-! ## The claimed price formula (spec §4.3) and concrete instances -/

/-- Modelled from the spec: `factor = 0.6 + (100-level)/150` for a sold
commodity, `factor = 1.0 + level/150` for a bought one, and
`price = max(5, floor(base_price * factor))`, in exact rational
arithmetic. -/
def claimed_price (m : Mode) (base level : Nat) : Int :=
  let factor : ℚ :=
    match m with
    | Mode.sell => 3 / 5 + (100 - (level : ℚ)) / 150
    | Mode.buy => 1 + (level : ℚ) / 150
  max 5 ⌊(base : ℚ) * factor⌋

/-- The claimed formula in integer arithmetic (equal to `claimed_price`
for levels in range; proved below). -/
def claimed_price_nat (m : Mode) (base level : Nat) : Nat :=
  match m with
  | Mode.sell => max 5 (base * (190 - level) / 150)
  | Mode.buy => max 5 (base * (150 + level) / 150)

/-- The inputs at which binary64 evaluation comes out one credit below the
claimed exact formula (mode, base price, level). -/
def float_exceptions : List (Mode × Nat × Nat) :=
  [(Mode.buy, 25, 24), (Mode.buy, 50, 24), (Mode.sell, 50, 55), (Mode.sell, 50, 91)]

/-- A type-2 port (mining station: buys ore) with every stock level at 50,
prices as `update_prices` computes them — the port of the spec trade
scenario. -/
def port_scn : Port :=
  Port.update_prices ⟨"Sigma Exchange", 2, fun _ => 50, fun _ => 0⟩

/-- A two-sector galaxy holding `port_scn` in sector 1 and the stardock in
sector 2. -/
def galaxy_scn : Galaxy :=
  ⟨2, fun i =>
    if i = 1 then some ⟨1, [2], some port_scn, none, false⟩
    else if i = 2 then some ⟨2, [1], none, none, true⟩
    else none⟩

/-- A player docked at the scenario port with five ore aboard. -/
def player_scn : PlayerState :=
  { sector := 1, credits := 1000, holds := 100, cargo := ⟨0, 5, 0⟩,
    hull := 100, shields := 10, bank := 0 }

/-- A type-2 port whose ore level is 24 — the level at which float
truncation loses a credit against the claimed formula. -/
def port_c5 : Port :=
  Port.update_prices
    ⟨"Tau Harbor", 2,
     fun c => match c with
       | Commodity.ore => 24
       | _ => 50,
     fun _ => 0⟩

/-- The port saved in sector 4 of the snapshot galaxy below. -/
def port_saved : Port :=
  Port.update_prices ⟨"Rigel Station", 1, fun _ => 50, fun _ => 0⟩

/-- A fresh random port, as `generate_ports` would build one. -/
def port_fresh : Port :=
  Port.update_prices ⟨"Nova Depot", 3, fun _ => 40, fun _ => 0⟩

/-- A five-sector galaxy with one port (sector 4), no port in sector 3 and
the stardock in sector 2 — the galaxy whose snapshot exhibits the C3
restore bug. -/
def g5 : Galaxy :=
  ⟨5, fun i =>
    if i = 1 then some ⟨1, [2, 3], none, none, false⟩
    else if i = 2 then some ⟨2, [1, 4], none, none, true⟩
    else if i = 3 then some ⟨3, [1, 5], none, none, false⟩
    else if i = 4 then some ⟨4, [2, 5], some port_saved, none, false⟩
    else if i = 5 then some ⟨5, [1, 2], none, none, false⟩
    else none⟩

/-- Random draws for the fresh galaxy `Galaxy.from_dict` generates before
restoring: the port sample (one port for size 5, drawn from sectors other
than 2) picks sector 3. -/
def r5 : GalaxyRand :=
  ⟨fun _ => [1, 2], [3], fun _ => port_fresh⟩

/-- An in-memory player-state mapping holding one connected player. -/
def players0 : String → Option PlayerState :=
  fun k => if k = "player-1" then some initial_player_state else none

/-! ## Theorems -/

/-- C4: for every non-empty string type `t` and every mapping payload `p`,
encoding produces the two-field envelope and decoding that envelope
succeeds and gives back exactly type `t` and payload `p`. -/
theorem C4_packet_roundtrip (t : String) (p : List (String × Json)) (h : t ≠ "") :
    encode_packet t p = Except.ok (packetObj t p) ∧
    decode_packet (packetObj t p) =
      Except.ok (Json.obj [("type", Json.str t), ("payload", Json.obj p)]) := by
  constructor
  · simp [encode_packet, packetObj, h]
  · simp [decode_packet, packetObj, List.lookup]

/-- Witness for C4 at a concrete packet. -/
theorem C4_packet_roundtrip_witness :
    encode_packet "PLAYER_MOVE" [("sector", Json.num 5)] =
      Except.ok (packetObj "PLAYER_MOVE" [("sector", Json.num 5)]) ∧
    decode_packet (packetObj "PLAYER_MOVE" [("sector", Json.num 5)]) =
      Except.ok (Json.obj [("type", Json.str "PLAYER_MOVE"),
                           ("payload", Json.obj [("sector", Json.num 5)])]) :=
  C4_packet_roundtrip "PLAYER_MOVE" [("sector", Json.num 5)] (by decide)

/-- C10: `decode_packet` accepts any string in the type field — the empty
string and strings outside the catalog included — and fails exactly on
values that are not an object with a string `type` and a mapping
`payload`; `encode_packet` rejects the empty type, so the empty-typed
envelope decodes although no encoding produces it. -/
theorem C10_decode_laxness :
    (∀ t p, decode_packet (packetObj t p) = Except.ok (packetObj t p)) ∧
    (∀ p, encode_packet "" p = Except.error "packet_type must be a non-empty string") ∧
    (∀ t p j, encode_packet t p = Except.ok j → j ≠ packetObj "" []) ∧
    decode_packet (packetObj "" []) = Except.ok (packetObj "" []) ∧
    "" ∉ VALID_PACKET_TYPES ∧
    (∀ j, (∃ x, decode_packet j = Except.ok x) ↔ decodable_shape j = true) := by
  refine ⟨?_, ?_, ?_, ?_, ?_, ?_⟩
  · intro t p
    simp [decode_packet, packetObj, List.lookup]
  · intro p
    rfl
  · intro t p j hok hne
    by_cases ht : t = ""
    · subst ht
      simp [encode_packet] at hok
    · simp [encode_packet, ht] at hok
      rw [← hok] at hne
      simp [packetObj] at hne
      exact ht hne.1
  · rfl
  · decide
  · intro j
    cases j <;> simp [decode_packet, decodable_shape]
    next members =>
      cases h1 : members.lookup "type" with
      | none => simp
      | some v1 =>
        cases v1 <;> simp
        cases h2 : members.lookup "payload" with
        | none => simp
        | some v2 => cases v2 <;> simp

/-- Witness for C10 at concrete inputs (discharging the hypothesis of the
only conditional conjunct: a successful encoding is never the empty-typed
envelope). -/
theorem C10_decode_laxness_witness :
    packetObj "CHAT_MESSAGE" [] ≠ packetObj "" [] :=
  C10_decode_laxness.2.2.1 "CHAT_MESSAGE" [] (packetObj "CHAT_MESSAGE" []) rfl

/-- C6: a trade request finding no port in the player's sector, or with a
non-positive amount, or naming a good the port does not trade, fails and
returns the player state unchanged. -/
theorem C6_trade_failure_no_mutation (g : Galaxy) (st : PlayerState)
    (action good : String) (amount : Int)
    (h : g.portAt st.sector = none ∨ amount ≤ 0 ∨ commodity_of_string good = none) :
    (do_trade g st action good amount).success = false ∧
    (do_trade g st action good amount).player_state = st := by
  rcases h with h | h | h
  · simp only [Galaxy.portAt] at h
    simp [do_trade, h]
  · cases hp : (g.sectors st.sector).bind Sector.port with
    | none => simp [do_trade, hp]
    | some port =>
      cases hc : commodity_of_string good with
      | none => simp [do_trade, hp, hc]
      | some c => simp [do_trade, hp, hc, h]
  · cases hp : (g.sectors st.sector).bind Sector.port with
    | none => simp [do_trade, hp]
    | some port => simp [do_trade, hp, h]

/-- Witness for C6: a zero-amount BUY at the scenario port. -/
theorem C6_trade_failure_no_mutation_witness :
    (do_trade galaxy_scn player_scn "BUY" "ore" 0).success = false ∧
    (do_trade galaxy_scn player_scn "BUY" "ore" 0).player_state = player_scn :=
  C6_trade_failure_no_mutation galaxy_scn player_scn "BUY" "ore" 0
    (Or.inr (Or.inl (by decide)))

/-- Writing one commodity slot changes the cargo sum by the difference at
that slot. -/
theorem Cargo.total_set (cargo : Cargo) (c : Commodity) (v : Int) :
    (cargo.set c v).total = cargo.total - cargo.get c + v := by
  cases c <;> simp [Cargo.set, Cargo.get, Cargo.total] <;> ring

/-- One trade request, of any kind and outcome, preserves the capacity and
credit invariant: failures return the state untouched, a successful BUY
is guarded by the capacity and funds checks, and a successful SELL only
removes cargo and adds credits. -/
theorem do_trade_preserves_invariant (g : Galaxy) (st : PlayerState)
    (action good : String) (amount : Int) (h : trade_invariant st) :
    trade_invariant (do_trade g st action good amount).player_state := by
  cases hp : (g.sectors st.sector).bind Sector.port with
  | none => simpa [do_trade, hp]
  | some port =>
    cases hc : commodity_of_string good with
    | none => simpa [do_trade, hc, hp]
    | some c =>
      by_cases ha : amount ≤ 0
      · simpa [do_trade, hp, hc, ha]
      · by_cases hInfo : action = "INFO"
        · simpa [do_trade, hp, hc, ha, hInfo]
        · by_cases hBuy : action = "BUY"
          · by_cases hHolds : st.holds < st.cargo.total + amount
            · simpa [do_trade, hp, hc, ha, hInfo, hBuy, hHolds]
            · by_cases hCred : st.credits < (port.prices c : Int) * amount
              · simpa [do_trade, hp, hc, ha, hInfo, hBuy, hHolds, hCred]
              · obtain ⟨h1, h2⟩ := h
                have hHolds2 : st.cargo.total + amount ≤ st.holds := not_lt.mp hHolds
                have hCred2 : (port.prices c : Int) * amount ≤ st.credits := not_lt.mp hCred
                simp [do_trade, hp, hc, ha, hInfo, hBuy, hHolds, hCred,
                      trade_invariant, Cargo.total_set]
                constructor <;> linarith
          · by_cases hSell : action = "SELL"
            · by_cases hCargo : st.cargo.get c < amount
              · simpa [do_trade, hp, hc, ha, hInfo, hBuy, hSell, hCargo]
              · obtain ⟨h1, h2⟩ := h
                have ha2 : 0 < amount := not_le.mp ha
                have hnn : 0 ≤ (port.prices c : Int) * amount :=
                  mul_nonneg (Int.natCast_nonneg _) (le_of_lt ha2)
                simp [do_trade, hp, hc, ha, hInfo, hBuy, hSell, hCargo,
                      trade_invariant, Cargo.total_set]
                constructor <;> linarith
            · simpa [do_trade, hp, hc, ha, hInfo, hBuy, hSell]

/-- C1: from any state satisfying the capacity and credit invariant, any
sequence of trade requests whose BUY and SELL steps all succeed ends in a
state that still satisfies `sum(cargo.values()) ≤ holds` and
`credits ≥ 0`. -/
theorem C1_trade_invariant (g : Galaxy) (st : PlayerState) (ops : List TradeOp)
    (hInv : trade_invariant st) (hSucc : trades_succeed g st ops = true) :
    trade_invariant (apply_trades g st ops) := by
  induction ops generalizing st with
  | nil => simpa [apply_trades]
  | cons op rest ih =>
    simp only [apply_trades]
    simp only [trades_succeed, Bool.and_eq_true] at hSucc
    exact ih _ (do_trade_preserves_invariant g st op.action op.good op.amount hInv) hSucc.2

/-- Witness for C1: buy two ore then sell one at the scenario port. -/
theorem C1_trade_invariant_witness :
    trade_invariant (apply_trades galaxy_scn player_scn
      [⟨"BUY", "ore", 2⟩, ⟨"SELL", "ore", 1⟩]) :=
  C1_trade_invariant galaxy_scn player_scn [⟨"BUY", "ore", 2⟩, ⟨"SELL", "ore", 1⟩]
    (by decide) (by decide)

/-- C7: every stardock action whose precondition fails — insufficient
credits or bank balance, hull already full, non-positive amount — returns
a failure with the player state untouched; an unknown action name returns
a failure carrying the valid action catalog without mutating the player;
in particular `RUSTY_GAMBLE` with a stake above the player's credits
fails without changing credits or bank. -/
theorem C7_stardock_precondition_failures (p : PlayerState) (amount : Int)
    (roll rumor_idx drink_idx : Nat) :
    (100 ≤ p.hull →
      stardock_process_action "REPAIR_HULL" amount roll rumor_idx drink_idx p =
        ⟨false, "Hull integrity at maximum. No repairs needed.", [], p⟩) ∧
    (p.hull < 100 → p.credits < 150 →
      (stardock_process_action "REPAIR_HULL" amount roll rumor_idx drink_idx p).success = false ∧
      (stardock_process_action "REPAIR_HULL" amount roll rumor_idx drink_idx p).player_state = p) ∧
    (p.credits < 500 →
      (stardock_process_action "UPGRADE_SHIELDS" amount roll rumor_idx drink_idx p).success = false ∧
      (stardock_process_action "UPGRADE_SHIELDS" amount roll rumor_idx drink_idx p).player_state = p) ∧
    (p.credits < 5000 →
      (stardock_process_action "EXPAND_CARGO" amount roll rumor_idx drink_idx p).success = false ∧
      (stardock_process_action "EXPAND_CARGO" amount roll rumor_idx drink_idx p).player_state = p) ∧
    (amount ≤ 0 ∨ p.credits < amount →
      (stardock_process_action "BANK_DEPOSIT" amount roll rumor_idx drink_idx p).success = false ∧
      (stardock_process_action "BANK_DEPOSIT" amount roll rumor_idx drink_idx p).player_state = p) ∧
    (amount ≤ 0 ∨ p.bank < amount →
      (stardock_process_action "BANK_WITHDRAW" amount roll rumor_idx drink_idx p).success = false ∧
      (stardock_process_action "BANK_WITHDRAW" amount roll rumor_idx drink_idx p).player_state = p) ∧
    (p.credits < amount →
      (stardock_process_action "RUSTY_GAMBLE" amount roll rumor_idx drink_idx p).success = false ∧
      (stardock_process_action "RUSTY_GAMBLE" amount roll rumor_idx drink_idx p).player_state = p) ∧
    (amount ≤ 0 →
      (stardock_process_action "RUSTY_GAMBLE" amount roll rumor_idx drink_idx p).success = false ∧
      (stardock_process_action "RUSTY_GAMBLE" amount roll rumor_idx drink_idx p).player_state = p) ∧
    (p.credits < 10 →
      (stardock_process_action "RUSTY_DRINKS" amount roll rumor_idx drink_idx p).success = false ∧
      (stardock_process_action "RUSTY_DRINKS" amount roll rumor_idx drink_idx p).player_state = p) ∧
    (∀ a, a ∉ KNOWN_STARDOCK_ACTIONS →
      stardock_process_action a amount roll rumor_idx drink_idx p =
        ⟨false, s!"Unknown Stardock action: {a}", STARDOCK_CATALOG_LINES, p⟩) := by
  refine ⟨?_, ?_, ?_, ?_, ?_, ?_, ?_, ?_, ?_, ?_⟩
  · intro h
    simp [stardock_process_action, h]
  · intro h1 h2
    simp [stardock_process_action, h2, Int.not_le.mpr h1]
  · intro h
    simp [stardock_process_action, h]
  · intro h
    simp [stardock_process_action, h]
  · rintro (h | h)
    · simp [stardock_process_action, h]
    · by_cases h0 : amount ≤ 0
      · simp [stardock_process_action, h0]
      · simp [stardock_process_action, h0, h]
  · rintro (h | h)
    · simp [stardock_process_action, h]
    · by_cases h0 : amount ≤ 0
      · simp [stardock_process_action, h0]
      · simp [stardock_process_action, h0, h]
  · intro h
    by_cases h0 : amount ≤ 0
    · simp [stardock_process_action, h0]
    · simp [stardock_process_action, h0, h]
  · intro h
    simp [stardock_process_action, h]
  · intro h
    simp [stardock_process_action, h]
  · intro a ha
    simp only [KNOWN_STARDOCK_ACTIONS, List.mem_cons, List.not_mem_nil, or_false,
      not_or] at ha
    obtain ⟨h1, h2, h3, h4, h5, h6, h7, h8, h9, h10, h11⟩ := ha
    simp [stardock_process_action, h1, h2, h3, h4, h5, h6, h7, h8, h9, h10, h11]

/-- Witness for C7 at concrete player states, one per precondition. -/
theorem C7_stardock_precondition_failures_witness :
    (stardock_process_action "REPAIR_HULL" 1 60 0 0 initial_player_state =
      ⟨false, "Hull integrity at maximum. No repairs needed.", [], initial_player_state⟩) ∧
    ((stardock_process_action "EXPAND_CARGO" 1 60 0 0 initial_player_state).player_state =
      initial_player_state) ∧
    ((stardock_process_action "BANK_WITHDRAW" 5 60 0 0 initial_player_state).player_state =
      initial_player_state) ∧
    ((stardock_process_action "RUSTY_GAMBLE" 2000 60 0 0 initial_player_state).success = false) ∧
    ((stardock_process_action "RUSTY_GAMBLE" 2000 60 0 0 initial_player_state).player_state =
      initial_player_state) ∧
    (stardock_process_action "WARP_DRIVE" 1 60 0 0 initial_player_state =
      ⟨false, "Unknown Stardock action: WARP_DRIVE", STARDOCK_CATALOG_LINES,
       initial_player_state⟩) := by
  refine ⟨?_, ?_, ?_, ?_, ?_, ?_⟩
  · exact (C7_stardock_precondition_failures initial_player_state 1 60 0 0).1 (by decide)
  · exact ((C7_stardock_precondition_failures initial_player_state 1 60 0 0).2.2.2.1
      (by decide)).2
  · exact ((C7_stardock_precondition_failures initial_player_state 5 60 0 0).2.2.2.2.2.1
      (Or.inr (by decide))).2
  · exact ((C7_stardock_precondition_failures initial_player_state 2000 60 0 0).2.2.2.2.2.2.1
      (by decide)).1
  · exact ((C7_stardock_precondition_failures initial_player_state 2000 60 0 0).2.2.2.2.2.2.1
      (by decide)).2
  · exact (C7_stardock_precondition_failures initial_player_state 1 60 0 0).2.2.2.2.2.2.2.2.2
      "WARP_DRIVE" (by decide)

/-- C9: a `RUSTY_GAMBLE` within the player's means on a losing roll
reports `success = false` while still mutating the player (the stake is
gone), so a stardock failure result does not imply the state is
unchanged; and the connection handler persists the player mapping after a
dock action exactly when the result reports success, so this mutation is
exactly what it fails to persist. -/
theorem C9_gamble_loss_mutates (p : PlayerState) (amount : Int)
    (roll rumor_idx drink_idx : Nat)
    (h1 : 0 < amount) (h2 : amount ≤ p.credits) (h3 : 50 < roll) :
    (stardock_process_action "RUSTY_GAMBLE" amount roll rumor_idx drink_idx p).success = false ∧
    (stardock_process_action "RUSTY_GAMBLE" amount roll rumor_idx drink_idx p).player_state.credits =
      p.credits - amount ∧
    (stardock_process_action "RUSTY_GAMBLE" amount roll rumor_idx drink_idx p).player_state ≠ p ∧
    dock_action_saves (stardock_process_action "RUSTY_GAMBLE" amount roll rumor_idx drink_idx p) =
      false ∧
    (∀ r : SDResult, dock_action_saves r = r.success) := by
  have h0 : ¬ amount ≤ 0 := by omega
  have hcred : ¬ p.credits < amount := by omega
  have hroll : ¬ roll ≤ 50 := by omega
  refine ⟨?_, ?_, ?_, ?_, fun r => rfl⟩
  · simp [stardock_process_action, h0, hcred, hroll]
  · simp [stardock_process_action, h0, hcred, hroll]
  · intro heq
    have := congrArg PlayerState.credits heq
    simp [stardock_process_action, h0, hcred, hroll] at this
    omega
  · simp [dock_action_saves, stardock_process_action, h0, hcred, hroll]

/-- Witness for C9: a losing 100-credit gamble from the starting state. -/
theorem C9_gamble_loss_mutates_witness :
    (stardock_process_action "RUSTY_GAMBLE" 100 60 0 0 initial_player_state).success = false ∧
    (stardock_process_action "RUSTY_GAMBLE" 100 60 0 0 initial_player_state).player_state.credits =
      initial_player_state.credits - 100 ∧
    (stardock_process_action "RUSTY_GAMBLE" 100 60 0 0 initial_player_state).player_state ≠
      initial_player_state ∧
    dock_action_saves (stardock_process_action "RUSTY_GAMBLE" 100 60 0 0 initial_player_state) =
      false ∧
    (∀ r : SDResult, dock_action_saves r = r.success) :=
  C9_gamble_loss_mutates initial_player_state 100 60 0 0 (by decide) (by decide) (by decide)

/-- C8, counterexample: the claim that the snapshot persisted at
disconnect still contains the departing player's last-known values is
false — the handler pops the entry from the mapping before writing it, so
the snapshot written at disconnect has no entry under that player id. -/
theorem C8_disconnect_counterexample :
    players0 "player-1" = some initial_player_state ∧
    (handle_disconnect "player-1" (fun _ => true) players0).2.2 "player-1" = none := by
  constructor
  · rfl
  · rfl

/-- C8, amended: on disconnect the in-memory entry is deleted and the
snapshot written to disk at that moment is the popped mapping — it no
longer contains the departing player, while every other player's entry is
written unchanged. -/
theorem C8_disconnect_amended (player_id : String) (connected : String → Bool)
    (players : String → Option PlayerState) :
    (handle_disconnect player_id connected players).2.1 player_id = none ∧
    (handle_disconnect player_id connected players).2.2 player_id = none ∧
    (handle_disconnect player_id connected players).1 player_id = false ∧
    (∀ k, k ≠ player_id →
      (handle_disconnect player_id connected players).2.1 k = players k ∧
      (handle_disconnect player_id connected players).2.2 k = players k) := by
  refine ⟨?_, ?_, ?_, ?_⟩
  · simp [handle_disconnect]
  · simp [handle_disconnect]
  · simp [handle_disconnect]
  · intro k hk
    simp [handle_disconnect, hk]

/-- Witness for C8 at a concrete registry and mapping. -/
theorem C8_disconnect_amended_witness :
    (handle_disconnect "player-1" (fun _ => true) players0).2.1 "player-1" = none ∧
    (handle_disconnect "player-1" (fun _ => true) players0).2.2 "player-2" =
      players0 "player-2" := by
  have h := C8_disconnect_amended "player-1" (fun _ => true) players0
  exact ⟨h.1, (h.2.2.2 "player-2" (by decide)).2⟩

/-- Sector 2 of a freshly generated galaxy of size at least 2: stardock
flag set, neighbors drawn, no port (any port the placement draw put there
is stripped by the final check), regardless of the random draws. -/
theorem galaxy_init_sector2 (size : Nat) (r : GalaxyRand) (h : 2 ≤ size) :
    (Galaxy.init size r).sectors 2 =
      some { id := 2, neighbors := r.warps 2, port := none, planet := none,
             is_stardock := true } := by
  have h12 : 1 ≤ 2 ∧ 2 ≤ size := ⟨one_le_two, h⟩
  by_cases hp : 2 ∈ r.port_sids <;>
    simp [Galaxy.init, Sector.new, h12, hp]

/-- One restore step keeps sector 2 a portless stardock, provided the
record it writes there (if any) says stardock and no port: a record for
another sector leaves sector 2 alone, and a record for sector 2 keeps the
already-absent port because the port branch only acts on a present
port. -/
theorem restore_sector_keeps_sector2 (rt : Nat) (g : Galaxy) (k : Nat) (sd : SectorData)
    (hsd : k = 2 → sd.stardock = true ∧ sd.port = none)
    (hg : sector2_ok g = true) :
    sector2_ok (Galaxy.restore_sector rt g (k, sd)) = true := by
  unfold Galaxy.restore_sector
  cases hgk : g.sectors k with
  | none => simpa [hgk] using hg
  | some s =>
    by_cases hk : k = 2
    · subst hk
      obtain ⟨hst, hpt⟩ := hsd rfl
      unfold sector2_ok at hg ⊢
      rw [hgk] at hg
      simp only [Bool.and_eq_true, Option.isNone_iff_eq_none] at hg
      simp [hgk, Sector.from_dict, hst, hpt, hg.2]
    · unfold sector2_ok at hg ⊢
      simpa [hgk, Ne.symm hk] using hg

/-- Folding the restore loop over any record list whose sector-2 records
all say stardock-and-no-port keeps sector 2 a portless stardock. -/
theorem restore_fold_keeps_sector2 (rt : Nat) (l : List (Nat × SectorData)) (g : Galaxy)
    (hl : ∀ sd, (2, sd) ∈ l → sd.stardock = true ∧ sd.port = none)
    (hg : sector2_ok g = true) :
    sector2_ok (l.foldl (Galaxy.restore_sector rt) g) = true := by
  induction l generalizing g with
  | nil => simpa using hg
  | cons e rest ih =>
    rcases e with ⟨k, sd⟩
    simp only [List.foldl_cons]
    apply ih
    · intro sd2 h2
      exact hl sd2 (List.mem_cons_of_mem _ h2)
    · apply restore_sector_keeps_sector2 rt g k sd ?_ hg
      intro hk
      subst hk
      exact hl sd (List.mem_cons_self _ _)

/-- A record keyed 2 in a serialized galaxy is the serialization of its
sector 2. -/
theorem to_dict_sector2_mem (g : Galaxy) (sd : SectorData)
    (h : (2, sd) ∈ g.to_dict.sectors) :
    ∃ s, g.sectors 2 = some s ∧ sd = s.to_dict := by
  simp only [Galaxy.to_dict, List.mem_filterMap] at h
  obtain ⟨i, _, hmap⟩ := h
  cases hgi : g.sectors i with
  | none => rw [hgi] at hmap; simp at hmap
  | some s =>
    rw [hgi] at hmap
    simp only [Option.map_some', Option.some.injEq, Prod.mk.injEq] at hmap
    obtain ⟨hi2, hsd⟩ := hmap
    subst hi2
    exact ⟨s, hgi, hsd.symm⟩

/-- C2: for every galaxy size of at least 2, sector 2 of a freshly
generated galaxy is the stardock and holds no port, whatever the random
draws; and restoring the snapshot of any galaxy with that property (which
every galaxy the program ever snapshots has) preserves it, again whatever
the fresh draws and type fallback used during the restore. -/
theorem C2_sector2_stardock :
    (∀ (size : Nat) (r : GalaxyRand), 2 ≤ size →
      sector2_ok (Galaxy.init size r) = true) ∧
    (∀ (g : Galaxy) (r : GalaxyRand) (rt : Nat), 2 ≤ g.size → sector2_ok g = true →
      sector2_ok (Galaxy.from_dict r rt g.to_dict) = true) := by
  have hinit : ∀ (size : Nat) (r : GalaxyRand), 2 ≤ size →
      sector2_ok (Galaxy.init size r) = true := by
    intro size r h
    unfold sector2_ok
    rw [galaxy_init_sector2 size r h]
    rfl
  refine ⟨hinit, ?_⟩
  intro g r rt hsize hg
  unfold Galaxy.from_dict
  apply restore_fold_keeps_sector2
  · intro sd hmem
    obtain ⟨s, hs, hsd⟩ := to_dict_sector2_mem g sd hmem
    unfold sector2_ok at hg
    rw [hs] at hg
    simp only [Bool.and_eq_true, Option.isNone_iff_eq_none] at hg
    subst hsd
    exact ⟨by simpa [Sector.to_dict] using hg.1, by simp [Sector.to_dict, hg.2]⟩
  · exact hinit g.to_dict.size r hsize

/-- Witness for C2 on a concrete size-5 galaxy and concrete draws. -/
theorem C2_sector2_stardock_witness :
    sector2_ok (Galaxy.init 5 r5) = true ∧
    sector2_ok (Galaxy.from_dict r5 1 g5.to_dict) = true :=
  ⟨C2_sector2_stardock.1 5 r5 (by decide),
   C2_sector2_stardock.2 g5 r5 1 (by decide) (by decide)⟩

/-- C3: the snapshot round trip does not restore port absence. `g5` has
no port in sector 3; restoring its own serialization regenerates a fresh
random galaxy first, and when the port-placement draw puts a port in
sector 3 the saved record `port: None` never clears it (`galaxy.py` line
89 only acts on a truthy saved port), so the restored sector 3 carries a
port the original never had. The neighbor list of the same sector is
restored, showing the record itself was processed, not skipped. -/
theorem C3_snapshot_port_resurrection :
    g5.portAt 3 = none ∧
    (Galaxy.portAt (Galaxy.from_dict r5 1 g5.to_dict) 3).isSome = true ∧
    ((Galaxy.from_dict r5 1 g5.to_dict).sectors 3).map Sector.neighbors =
      some [1, 5] := by
  refine ⟨rfl, by decide, by decide⟩

/-- The claimed rational formula agrees with its integer form for levels
in range. -/
theorem claimed_price_eq_nat (m : Mode) (base level : Nat) (h : level ≤ 100) :
    claimed_price m base level = (claimed_price_nat m base level : Int) := by
  cases m with
  | sell =>
    unfold claimed_price claimed_price_nat
    dsimp only
    have hfac : (base : ℚ) * (3 / 5 + (100 - (level : ℚ)) / 150) =
        ((base * (190 - level) : Nat) : ℚ) / ((150 : Nat) : ℚ) := by
      have hcast : ((190 - level : Nat) : ℚ) = 190 - (level : ℚ) := by
        rw [Nat.cast_sub (by omega)]
        norm_num
      push_cast [hcast]
      ring
    rw [hfac, Rat.floor_natCast_div_natCast, ← Int.ofNat_ediv]
    simp [Nat.cast_max]
  | buy =>
    unfold claimed_price claimed_price_nat
    dsimp only
    have hfac : (base : ℚ) * (1 + (level : ℚ) / 150) =
        ((base * (150 + level) : Nat) : ℚ) / ((150 : Nat) : ℚ) := by
      push_cast
      ring
    rw [hfac, Rat.floor_natCast_div_natCast, ← Int.ofNat_ediv]
    simp [Nat.cast_max]

set_option maxHeartbeats 4000000 in
/-- The exhaustive binary64-versus-exact comparison over every mode, base
price and stock level in range, as one boolean computation: outside the
four exception inputs the float price equals the claimed formula, and on
them it is exactly one credit lower. -/
theorem float_price_check :
    ((List.range 101).all fun level =>
      [Mode.buy, Mode.sell].all fun m =>
        [10, 25, 50].all fun base =>
          if (m, base, level) ∈ float_exceptions then
            decide (float_price m base level + 1 = claimed_price_nat m base level)
          else
            decide (float_price m base level = claimed_price_nat m base level)) = true := by
  decide

/-- Pointwise form of the exhaustive check, against the rational claimed
formula. -/
theorem float_price_vs_claimed (m : Mode) (base level : Nat)
    (hb : base = 10 ∨ base = 25 ∨ base = 50) (hl : level ≤ 100) :
    (float_price m base level : Int) =
      claimed_price m base level -
        (if (m, base, level) ∈ float_exceptions then 1 else 0) := by
  have h := float_price_check
  simp only [List.all_eq_true, List.mem_range, List.mem_cons, List.not_mem_nil,
    or_false] at h
  have h2 := h level (by omega) m (by cases m <;> simp) base
    (by rcases hb with h | h | h <;> simp [h])
  rw [claimed_price_eq_nat m base level hl]
  by_cases he : (m, base, level) ∈ float_exceptions
  · rw [if_pos he]
    rw [if_pos he] at h2
    have h3 := of_decide_eq_true h2
    omega
  · rw [if_neg he]
    rw [if_neg he] at h2
    have h3 := of_decide_eq_true h2
    omega

/-- C5, counterexample: at a type-2 port (ore bought from players) with
ore level 24, the code computes price 28 — `25 * (1.0 + 24/150.0)` rounds
to `28.999999999999996` and `int()` truncates — while the claimed
`max(5, floor(base * factor))` is 29. -/
theorem C5_price_counterexample :
    port_c5.prices Commodity.ore = 28 ∧
    claimed_price (port_c5.modes Commodity.ore) (BASE_PRICES Commodity.ore)
      (port_c5.commodity_levels Commodity.ore) = 29 ∧
    port_c5.modes Commodity.ore = Mode.buy ∧
    port_c5.commodity_levels Commodity.ore = 24 := by
  refine ⟨by decide, ?_, by decide, by decide⟩
  have hmode : port_c5.modes Commodity.ore = Mode.buy := by decide
  have hlvl : port_c5.commodity_levels Commodity.ore = 24 := by decide
  have hbase : BASE_PRICES Commodity.ore = 25 := rfl
  rw [hmode, hlvl, hbase, claimed_price_eq_nat Mode.buy 25 24 (by omega)]
  decide

/-- C5, amended: prices are computed by the claimed factor formula in
binary64 floating point, which matches `max(5, floor(base * factor))`
exactly except at four inputs — ore bought at level 24, equipment bought
at level 24, equipment sold at levels 55 and 91 — where truncation makes
the computed price one credit lower; the claimed scenario itself is
exact: a type-2 port with ore level 50 prices ore at 33, and a player
selling 2 ore gains 66 credits and loses 2 ore. -/
theorem C5_price_formula_amended :
    (∀ (p : Port) (c : Commodity), p.commodity_levels c ≤ 100 →
      (p.update_prices.prices c : Int) =
        claimed_price (p.modes c) (BASE_PRICES c) (p.commodity_levels c) -
          (if (p.modes c, BASE_PRICES c, p.commodity_levels c) ∈ float_exceptions
           then 1 else 0)) ∧
    port_scn.prices Commodity.ore = 33 ∧
    (do_trade galaxy_scn player_scn "SELL" "ore" 2).success = true ∧
    (do_trade galaxy_scn player_scn "SELL" "ore" 2).player_state.credits =
      player_scn.credits + 66 ∧
    (do_trade galaxy_scn player_scn "SELL" "ore" 2).player_state.cargo.ore =
      player_scn.cargo.ore - 2 := by
  refine ⟨?_, by decide, by decide, by decide, by decide⟩
  intro p c hl
  have hb : BASE_PRICES c = 10 ∨ BASE_PRICES c = 25 ∨ BASE_PRICES c = 50 := by
    cases c <;> simp [BASE_PRICES]
  have h := float_price_vs_claimed (p.modes c) (BASE_PRICES c) (p.commodity_levels c) hb hl
  simpa [Port.update_prices] using h

/-- Witness for C5 amended, applying the universal part at the
counterexample port. -/
theorem C5_price_formula_amended_witness :
    (port_c5.update_prices.prices Commodity.ore : Int) =
      claimed_price (port_c5.modes Commodity.ore) (BASE_PRICES Commodity.ore)
        (port_c5.commodity_levels Commodity.ore) -
        (if (port_c5.modes Commodity.ore, BASE_PRICES Commodity.ore,
             port_c5.commodity_levels Commodity.ore) ∈ float_exceptions
         then 1 else 0) :=
  C5_price_formula_amended.1 port_c5 Commodity.ore (by decide)

end TW
